import Mathlib

/-!
Shallow embedding of the Rust async HTTP server (src/src/main.rs).

Modelling conventions:
* `u64` values are `Nat` with wrap-around written explicitly as `% 2 ^ 64`
  (`AtomicU64::fetch_add` wraps on overflow).
* `f64` is modelled as the exact rational `Rat`; the claims about
  `requests_per_second` concern which branch is taken and which division is
  performed, not floating-point rounding.
* `Instant`/`Local::now()` are ambient per-request inputs (`Ctx`): the
  timestamp string and the elapsed whole seconds since server start.
* Rust `&str` is `String`; the byte slice `&path[6..]` is modelled by
  `sliceFrom`, which walks UTF-8 byte sizes and returns `none` exactly when
  the Rust slice would panic (out of range or not a char boundary).
* `serde_json::to_string(body).unwrap()` is modelled by a serializer over a
  small JSON-value type whose object keys may be non-strings (the error case
  serde_json has for maps); serialization returns `Except`, and the `unwrap`
  makes `json_response` an `Option`, `none` standing for the panic.
* Concurrency: each `fetch_add` is an atomic read-modify-write, so any
  interleaving of complete requests acts on the counter as some sequential
  order of the per-request updates; `dispatchAll` folds `handle_request`
  over such an order.
-/

namespace RustHttp

/-- HTTP methods, as in hyper's `Method` type. -/
inductive Method where
  | GET | POST | PUT | DELETE | HEAD | OPTIONS | PATCH | TRACE | CONNECT
deriving DecidableEq, Repr

/-- The u64 modulus: `AtomicU64` arithmetic wraps at `2 ^ 64`. -/
def U64_MOD : Nat := 2 ^ 64

/-- `ServerStats::new()` initialises the counter with `AtomicU64::new(0)`. -/
def new_total_requests : Nat := 0

/-- `fetch_add(1, Ordering::Relaxed)` on `AtomicU64`: wrapping add of 1. -/
def increment_requests (v : Nat) : Nat := (v + 1) % U64_MOD

/-- `self.total_requests.load(Ordering::Relaxed)`. -/
def get_total_requests (v : Nat) : Nat := v

/-- The payload struct `JsonResponse { message, timestamp, server }`. -/
structure JsonResponse where
  message : String
  timestamp : String
  server : String
deriving DecidableEq, Repr

/-- The payload struct
`StatsResponse { total_requests: u64, uptime_seconds: u64, requests_per_second: f64 }`. -/
structure StatsResponse where
  total_requests : Nat
  uptime_seconds : Nat
  requests_per_second : Rat
deriving DecidableEq, Repr

/-- A JSON object key as serde sees it: serde_json can only serialize string
keys, `nonString` stands for any map key that is not a string. -/
inductive JKey where
  | str (s : String)
  | nonString
deriving DecidableEq, Repr

/-- Leaf JSON values (the payload structs above contain only these). -/
inductive JLit where
  | null
  | jbool (b : Bool)
  | num (q : Rat)
  | str (s : String)
deriving DecidableEq, Repr

/-- JSON values: a leaf, or a flat object. -/
inductive JValue where
  | lit (v : JLit)
  | obj (fields : List (JKey × JLit))
deriving DecidableEq, Repr

/-- One hex digit (lower case). -/
def hexDigit (n : Nat) : Char :=
  if n < 10 then Char.ofNat (48 + n) else Char.ofNat (87 + n % 16)

/-- Four hex digits of a code point, for a JSON escape. -/
def hexEscape (n : Nat) : String :=
  String.mk [hexDigit (n / 4096 % 16), hexDigit (n / 256 % 16),
             hexDigit (n / 16 % 16), hexDigit (n % 16)]

/-- JSON string escaping of one character. -/
def escapeChar (c : Char) : String :=
  if c = '"' then "\\\""
  else if c = '\\' then "\\\\"
  else if c = '\n' then "\\n"
  else if c = '\r' then "\\r"
  else if c = '\t' then "\\t"
  else if c.toNat < 32 then "\\u" ++ hexEscape c.toNat
  else String.singleton c

/-- A JSON string literal: quotes around the escaped characters. -/
def renderString (s : String) : String :=
  "\"" ++ String.join (s.data.map escapeChar) ++ "\""

/-- Rendering of a JSON number. Integers print exactly; the decimal
rendering serde uses for a non-integer f64 is abstracted. -/
def renderNum (q : Rat) : String :=
  if q.den = 1 then toString q.num else toString q.num ++ "/" ++ toString q.den

/-- Rendering of a leaf JSON value. -/
def renderLit : JLit → String
  | JLit.null => "null"
  | JLit.jbool b => if b then "true" else "false"
  | JLit.num q => renderNum q
  | JLit.str s => renderString s

/-- Rendering of an object's fields; fails on a non-string key, which is the
error case serde_json's serializer has for plain data. -/
def renderFields : List (JKey × JLit) → Except String String
  | [] => Except.ok ""
  | (JKey.str k, v) :: rest =>
      match renderFields rest with
      | Except.ok r =>
          Except.ok (renderString k ++ ":" ++ renderLit v ++
            (if rest = [] then "" else ",") ++ r)
      | Except.error e => Except.error e
  | (JKey.nonString, _) :: _ => Except.error "key must be a string"

/-- `serde_json::to_string`: total on leaves, fails exactly when an object
holds a non-string key. -/
def serde_json_to_string : JValue → Except String String
  | JValue.lit v => Except.ok (renderLit v)
  | JValue.obj fields =>
      match renderFields fields with
      | Except.ok r => Except.ok ("\x7b" ++ r ++ "\x7d")
      | Except.error e => Except.error e

/-- The two body shapes the handlers serialize. -/
inductive Payload where
  | json (r : JsonResponse)
  | stats (s : StatsResponse)
deriving DecidableEq, Repr

/-- The derived `Serialize` impls: each struct becomes a JSON object with
string keys in declaration order. -/
def payloadToJValue : Payload → JValue
  | Payload.json r =>
      JValue.obj [(JKey.str "message", JLit.str r.message),
                  (JKey.str "timestamp", JLit.str r.timestamp),
                  (JKey.str "server", JLit.str r.server)]
  | Payload.stats s =>
      JValue.obj [(JKey.str "total_requests", JLit.num (s.total_requests : Rat)),
                  (JKey.str "uptime_seconds", JLit.num (s.uptime_seconds : Rat)),
                  (JKey.str "requests_per_second", JLit.num s.requests_per_second)]

/-- An HTTP response as built by `json_response`: status code, headers, the
payload that was serialized, and the serialized body text. -/
structure Response where
  status : Nat
  headers : List (String × String)
  payload : Payload
  body : String
deriving DecidableEq, Repr

/-- The `Content-Type` header set on every response. -/
def contentTypeHeader : String × String := ("Content-Type", "application/json")

/-- The `Server` header set on every response. -/
def serverHeader : String × String := ("Server", "rust-http-server/1.0")

/-- The constant server identifier string. -/
def serverIdent : String := "rust-http-server/1.0"

/-- `json_response(status, body)`: serializes the payload (the `.unwrap()`
panic is `none`) and attaches the two fixed headers. The `Response::builder`
chain itself cannot fail on this fixed, valid header/status data. -/
def json_response (status : Nat) (pl : Payload) : Option Response :=
  match serde_json_to_string (payloadToJValue pl) with
  | Except.ok body =>
      some { status := status, headers := [contentTypeHeader, serverHeader],
             payload := pl, body := body }
  | Except.error _ => none

/-- `handle_root()`. -/
def handle_root (ts : String) : Option Response :=
  json_response 200 (Payload.json ⟨"Welcome to Rust HTTP Server!", ts, serverIdent⟩)

/-- `handle_health()`. -/
def handle_health (ts : String) : Option Response :=
  json_response 200 (Payload.json ⟨"Server is healthy", ts, serverIdent⟩)

/-- `handle_stats(stats)`: reads uptime and the counter, divides only when
uptime is positive. -/
def handle_stats (total uptime : Nat) : Option Response :=
  let rps : Rat := if uptime > 0 then (total : Rat) / (uptime : Rat) else 0
  json_response 200 (Payload.stats ⟨total, uptime, rps⟩)

/-- `handle_echo(message)`: `format!("Echo: \x7b\x7d", message)`. -/
def handle_echo (message ts : String) : Option Response :=
  json_response 200 (Payload.json ⟨"Echo: " ++ message, ts, serverIdent⟩)

/-- `handle_not_found()`. -/
def handle_not_found (ts : String) : Option Response :=
  json_response 404 (Payload.json ⟨"Not Found", ts, serverIdent⟩)

/-- Rust `str::starts_with` on the character lists (the pattern here is
ASCII, so byte-wise and character-wise agreement coincide). -/
def startsWithChars : List Char → List Char → Bool
  | [], _ => true
  | _ :: _, [] => false
  | a :: pat, b :: s => a == b && startsWithChars pat s

/-- `path.starts_with(pat)`. -/
def rust_starts_with (s pat : String) : Bool :=
  startsWithChars pat.data s.data

/-- Drop `n` UTF-8 bytes from a character list: `none` when `n` overruns the
string or falls inside a character, the two cases where Rust `&s[n..]`
panics. -/
def dropBytes (l : List Char) (n : Nat) : Option (List Char) :=
  if n = 0 then some l
  else
    match l with
    | [] => none
    | c :: cs => if c.utf8Size ≤ n then dropBytes cs (n - c.utf8Size) else none

/-- The byte slice `&s[n..]`, `none` standing for the slice panic. -/
def sliceFrom (s : String) (n : Nat) : Option String :=
  (dropBytes s.data n).map String.mk

/-- The five handlers `handle_request` can select. -/
inductive Handler where
  | root
  | health
  | stats
  | echo (msg : String)
  | notFound
deriving DecidableEq, Repr

/-- The `match (method, path)` of `handle_request` as the ordered first-match
chain it is; the echo arm carries the sliced remainder, and is `none` exactly
when the slice would panic. -/
def route (m : Method) (p : String) : Option Handler :=
  if m = Method.GET ∧ p = "/" then some Handler.root
  else if m = Method.GET ∧ p = "/health" then some Handler.health
  else if m = Method.GET ∧ p = "/stats" then some Handler.stats
  else if m = Method.GET ∧ rust_starts_with p "/echo/" = true then
    (sliceFrom p 6).map Handler.echo
  else some Handler.notFound

/-- Ambient per-request inputs: the formatted current time and the elapsed
whole seconds since server start. -/
structure Ctx where
  timestamp : String
  uptime : Nat
deriving DecidableEq, Repr

/-- `handle_request(req, stats)`: increments the counter first, then
dispatches on (method, path); the stats handler loads the counter after the
increment. Returns the new counter value and the response; `none` stands for
a panic (none is ever reached). -/
def handle_request (m : Method) (p : String) (total : Nat) (ctx : Ctx) :
    Option (Nat × Response) :=
  let total' := increment_requests total
  let resp : Option Response :=
    match route m p with
    | some Handler.root => handle_root ctx.timestamp
    | some Handler.health => handle_health ctx.timestamp
    | some Handler.stats => handle_stats (get_total_requests total') ctx.uptime
    | some (Handler.echo msg) => handle_echo msg ctx.timestamp
    | some Handler.notFound => handle_not_found ctx.timestamp
    | none => none
  resp.map (fun r => (total', r))

/-- One request: method, path and its ambient inputs. -/
structure Req where
  method : Method
  path : String
  ctx : Ctx
deriving DecidableEq, Repr

/-- A complete execution of a list of requests in some sequential order (any
interleaving of the atomic counter updates is such an order), threading the
counter; yields the final counter value. -/
def dispatchAll : List Req → Nat → Option Nat
  | [], total => some total
  | r :: rs, total =>
      match handle_request r.method r.path total r.ctx with
      | some (t, _) => dispatchAll rs t
      | none => none

/-! Helper lemmas about the embedding. -/

/-- Serialization of both payload shapes always succeeds: their objects only
carry string keys. -/
theorem serde_ok (pl : Payload) :
    ∃ s, serde_json_to_string (payloadToJValue pl) = Except.ok s := by
  cases pl <;> exact ⟨_, rfl⟩

/-- The response `json_response` builds: always some, with the given status,
the two fixed headers and the given payload. -/
theorem json_response_some (st : Nat) (pl : Payload) :
    ∃ r, json_response st pl = some r ∧ r.status = st ∧
      r.headers = [contentTypeHeader, serverHeader] ∧ r.payload = pl := by
  obtain ⟨s, hs⟩ := serde_ok pl
  refine ⟨{ status := st, headers := [contentTypeHeader, serverHeader],
            payload := pl, body := s }, ?_, rfl, rfl, rfl⟩
  simp [json_response, hs]

/-- The unwrap in `json_response` never panics. -/
theorem json_response_isSome (st : Nat) (pl : Payload) :
    (json_response st pl).isSome = true := by
  obtain ⟨r, h, -⟩ := json_response_some st pl
  simp [h]

/-- Any response `json_response` returns carries exactly the two fixed
headers. -/
theorem json_response_headers (st : Nat) (pl : Payload) (r : Response)
    (h : json_response st pl = some r) :
    r.headers = [contentTypeHeader, serverHeader] := by
  unfold json_response at h
  rcases hs : serde_json_to_string (payloadToJValue pl) with e | s
  · rw [hs] at h
    cases h
  · rw [hs] at h
    have h2 := Option.some.inj h
    subst h2
    rfl

/-- Characterisation of `startsWithChars`: the pattern is an initial segment. -/
theorem startsWithChars_iff (pat s : List Char) :
    startsWithChars pat s = true ↔ ∃ rest, s = pat ++ rest := by
  induction pat generalizing s with
  | nil => simp [startsWithChars]
  | cons a pat ih =>
    cases s with
    | nil => simp [startsWithChars]
    | cons b s =>
      simp only [startsWithChars, Bool.and_eq_true, beq_iff_eq, ih,
        List.cons_append, List.cons.injEq]
      constructor
      · rintro ⟨rfl, rest, rfl⟩; exact ⟨rest, rfl, rfl⟩
      · rintro ⟨rest, rfl, rfl⟩; exact ⟨rfl, rest, rfl⟩

/-- A path passing `starts_with("/echo/")` decomposes into those six ASCII
characters followed by the remainder. -/
theorem rust_starts_with_echo (p : String)
    (h : rust_starts_with p "/echo/" = true) :
    ∃ rest, p.data = '/' :: 'e' :: 'c' :: 'h' :: 'o' :: '/' :: rest := by
  have := (startsWithChars_iff ("/echo/").data p.data).mp h
  simpa using this

/-- Dropping zero bytes is the identity. -/
theorem dropBytes_zero (l : List Char) : dropBytes l 0 = some l := by
  rw [dropBytes.eq_def]; simp

/-- Dropping six bytes past the six one-byte characters of "/echo/" lands on
a character boundary and yields the remainder. -/
theorem dropBytes_echo (rest : List Char) :
    dropBytes ('/' :: 'e' :: 'c' :: 'h' :: 'o' :: '/' :: rest) 6 = some rest := by
  have h1 : ('/' : Char).utf8Size = 1 := rfl
  have h2 : ('e' : Char).utf8Size = 1 := rfl
  have h3 : ('c' : Char).utf8Size = 1 := rfl
  have h4 : ('h' : Char).utf8Size = 1 := rfl
  have h5 : ('o' : Char).utf8Size = 1 := rfl
  simp [dropBytes, h1, h2, h3, h4, h5, dropBytes_zero]

/-- On a path passing `starts_with("/echo/")`, the byte slice `&path[6..]`
succeeds and equals dropping the six characters of the pattern. -/
theorem sliceFrom_echo (p : String) (h : rust_starts_with p "/echo/" = true) :
    sliceFrom p 6 = some (String.mk (p.data.drop 6)) := by
  obtain ⟨rest, hp⟩ := rust_starts_with_echo p h
  rw [sliceFrom, hp, dropBytes_echo]
  simp

/-- An echo path is none of the three exactly-matched paths. -/
theorem echo_path_ne (p : String) (h : rust_starts_with p "/echo/" = true) :
    p ≠ "/" ∧ p ≠ "/health" ∧ p ≠ "/stats" := by
  obtain ⟨rest, hp⟩ := rust_starts_with_echo p h
  refine ⟨?_, ?_, ?_⟩ <;> intro e <;> rw [e] at hp <;> simp at hp

/-- The router sends every GET path passing `starts_with("/echo/")` to the
echo handler with the sliced remainder. -/
theorem route_echo (p : String) (h : rust_starts_with p "/echo/" = true) :
    route Method.GET p = some (Handler.echo (String.mk (p.data.drop 6))) := by
  obtain ⟨h1, h2, h3⟩ := echo_path_ne p h
  simp [route, h1, h2, h3, h, sliceFrom_echo p h]

/-- Every (method, path) pair matching no earlier rule falls to the
not-found handler. -/
theorem route_not_found (m : Method) (p : String)
    (h : ¬(m = Method.GET ∧ (p = "/" ∨ p = "/health" ∨ p = "/stats" ∨
        rust_starts_with p "/echo/" = true))) :
    route m p = some Handler.notFound := by
  by_cases hm : m = Method.GET
  · subst hm
    push_neg at h
    obtain ⟨h1, h2, h3, h4⟩ := h rfl
    simp [route, h1, h2, h3, h4]
  · simp [route, hm]

/-- The router always selects a handler. -/
theorem route_isSome (m : Method) (p : String) : ∃ hh, route m p = some hh := by
  unfold route
  split_ifs with h1 h2 h3 h4
  · exact ⟨_, rfl⟩
  · exact ⟨_, rfl⟩
  · exact ⟨_, rfl⟩
  · exact ⟨_, by rw [sliceFrom_echo p h4.2]; rfl⟩
  · exact ⟨_, rfl⟩

/-- Whenever `handle_request` answers, the new counter value is exactly one
wrapping increment of the old one. -/
theorem handle_request_fst (m : Method) (p : String) (total : Nat) (ctx : Ctx)
    (out : Nat × Response) (h : handle_request m p total ctx = some out) :
    out.1 = increment_requests total := by
  unfold handle_request at h
  rw [Option.map_eq_some'] at h
  obtain ⟨r, -, hfr⟩ := h
  rw [← hfr]

/-- `handle_request` always answers, with the incremented counter. -/
theorem handle_request_eq (m : Method) (p : String) (total : Nat) (ctx : Ctx) :
    ∃ r, handle_request m p total ctx = some (increment_requests total, r) := by
  obtain ⟨hh, hr⟩ := route_isSome m p
  unfold handle_request
  rw [hr]
  cases hh <;>
    simp only [handle_root, handle_health, handle_stats, handle_echo,
      handle_not_found, get_total_requests] <;>
    · obtain ⟨r, hjr, -⟩ := json_response_some _ _
      exact ⟨r, by rw [hjr]; rfl⟩

/-- `handle_request` never reaches a panic. -/
theorem handle_request_isSome (m : Method) (p : String) (total : Nat) (ctx : Ctx) :
    (handle_request m p total ctx).isSome = true := by
  obtain ⟨r, h⟩ := handle_request_eq m p total ctx
  simp [h]

/-- The response on an echo path: status 200 and the echoed remainder. -/
theorem handle_request_echo (p : String) (total : Nat) (ctx : Ctx)
    (h : rust_starts_with p "/echo/" = true) :
    ∃ r, handle_request Method.GET p total ctx = some (increment_requests total, r) ∧
      r.status = 200 ∧
      r.payload = Payload.json ⟨"Echo: " ++ String.mk (p.data.drop 6),
        ctx.timestamp, serverIdent⟩ := by
  have hr := route_echo p h
  obtain ⟨r, hjr, hst, hhd, hpl⟩ := json_response_some 200
    (Payload.json ⟨"Echo: " ++ String.mk (p.data.drop 6), ctx.timestamp, serverIdent⟩)
  refine ⟨r, ?_, hst, hpl⟩
  simp [handle_request, hr, handle_echo, hjr]

/-- Any response `handle_request` returns carries exactly the two fixed
headers. -/
theorem handle_request_headers (m : Method) (p : String) (total : Nat) (ctx : Ctx)
    (out : Nat × Response) (h : handle_request m p total ctx = some out) :
    out.2.headers = [contentTypeHeader, serverHeader] := by
  unfold handle_request at h
  rw [Option.map_eq_some'] at h
  obtain ⟨r, hr, hout⟩ := h
  have h2 : out.2 = r := by rw [← hout]
  rw [h2]
  rcases hro : route m p with - | hh
  · rw [hro] at hr; cases hr
  · rw [hro] at hr
    cases hh <;>
      simp only [handle_root, handle_health, handle_stats, handle_echo,
        handle_not_found] at hr <;>
      exact json_response_headers _ _ _ hr

/-- The payload of the stats response: the guarded division. -/
theorem handle_stats_payload (total uptime : Nat) :
    (handle_stats total uptime).map Response.payload =
      some (Payload.stats ⟨total, uptime,
        if uptime > 0 then (total : Rat) / (uptime : Rat) else 0⟩) := by
  obtain ⟨r, hjr, hst, hhd, hpl⟩ := json_response_some 200
    (Payload.stats ⟨total, uptime,
      if uptime > 0 then (total : Rat) / (uptime : Rat) else 0⟩)
  simp [handle_stats, hjr, hpl]

/-- Running any sequence of requests adds its length to the counter, modulo
2^64. -/
theorem dispatchAll_eq (rs : List Req) :
    ∀ total, total < U64_MOD →
      dispatchAll rs total = some ((total + rs.length) % U64_MOD) := by
  induction rs with
  | nil =>
    intro total ht
    simp [dispatchAll, Nat.mod_eq_of_lt ht]
  | cons r rs ih =>
    intro total ht
    obtain ⟨resp, hr⟩ := handle_request_eq r.method r.path total r.ctx
    have hlt : increment_requests total < U64_MOD := by
      have h0 : 0 < U64_MOD := by norm_num [U64_MOD]
      exact Nat.mod_lt _ h0
    rw [dispatchAll, hr]
    show dispatchAll rs (increment_requests total) =
      some ((total + (r :: rs).length) % U64_MOD)
    rw [ih _ hlt]
    simp only [increment_requests, List.length_cons, Nat.mod_add_mod]
    have harith : total + 1 + rs.length = total + (rs.length + 1) := by omega
    rw [harith]

/-! The claims. -/

/-- Claim C1: the router selects exactly one handler by ordered first-match
on (method, path): (GET, "/") maps to the root handler, (GET, "/health") to
the health handler, (GET, "/stats") to the stats handler, (GET, any path
passing `starts_with("/echo/")`) to the echo handler, and every other
(method, path) pair — including non-GET methods on the listed paths — maps to
the not-found handler, which returns status 404. -/
theorem router_ordered_first_match :
    route Method.GET "/" = some Handler.root ∧
    route Method.GET "/health" = some Handler.health ∧
    route Method.GET "/stats" = some Handler.stats ∧
    (∀ p, rust_starts_with p "/echo/" = true →
      route Method.GET p = some (Handler.echo (String.mk (p.data.drop 6)))) ∧
    (∀ m p, ¬(m = Method.GET ∧ (p = "/" ∨ p = "/health" ∨ p = "/stats" ∨
        rust_starts_with p "/echo/" = true)) →
      route m p = some Handler.notFound) ∧
    (∀ ts, ∃ r, handle_not_found ts = some r ∧ r.status = 404) := by
  refine ⟨by decide, by decide, by decide, route_echo, route_not_found, fun ts => ?_⟩
  obtain ⟨r, hr, hst, -, -⟩ := json_response_some 404
    (Payload.json ⟨"Not Found", ts, serverIdent⟩)
  exact ⟨r, by rw [handle_not_found]; exact hr, hst⟩

/-- Witness for C1 at concrete inputs: an echo path routes to echo, a POST
on a listed path routes to not-found, and the not-found handler answers
404. -/
theorem router_ordered_first_match_witness :
    route Method.GET "/echo/hi" = some (Handler.echo (String.mk ("/echo/hi".data.drop 6))) ∧
    route Method.POST "/health" = some Handler.notFound ∧
    (∃ r, handle_not_found "t" = some r ∧ r.status = 404) :=
  ⟨router_ordered_first_match.2.2.2.1 "/echo/hi" (by decide),
   router_ordered_first_match.2.2.2.2.1 Method.POST "/health" (by decide),
   router_ordered_first_match.2.2.2.2.2 "t"⟩

/-- Claim C2: every request reaching dispatch — the not-found route
included — increments the counter exactly once, before the handler runs; in
particular a GET /stats issued when the counter stands at 5 prior requests
reports total_requests = 6 (the /stats request counts itself) with zero
uptime and zero requests per second. -/
theorem increment_once_before_dispatch :
    (∀ m p total ctx out, handle_request m p total ctx = some out →
      out.1 = increment_requests total) ∧
    (∀ ts, ∃ r, handle_request Method.GET "/stats" 5 ⟨ts, 0⟩ = some (6, r) ∧
      r.payload = Payload.stats ⟨6, 0, 0⟩) := by
  constructor
  · exact handle_request_fst
  · intro ts
    obtain ⟨r, hjr, hst, hhd, hpl⟩ := json_response_some 200
      (Payload.stats ⟨6, 0, (0 : Rat)⟩)
    refine ⟨r, ?_, hpl⟩
    have hroute : route Method.GET "/stats" = some Handler.stats := by decide
    have h6 : increment_requests 5 = 6 := by decide
    simp [handle_request, hroute, handle_stats, get_total_requests, h6, hjr]

/-- Witness for C2 at concrete inputs: one GET / from counter 0 yields
counter 1, and the five-prior-requests /stats scenario. -/
theorem increment_once_before_dispatch_witness :
    (handle_request Method.GET "/" 0 ⟨"t", 0⟩).map Prod.fst =
      some (increment_requests 0) ∧
    (∃ r, handle_request Method.GET "/stats" 5 ⟨"t", 0⟩ = some (6, r) ∧
      r.payload = Payload.stats ⟨6, 0, 0⟩) := by
  constructor
  · rcases h : handle_request Method.GET "/" 0 ⟨"t", 0⟩ with - | out
    · exact absurd h (by decide)
    · simp [increment_once_before_dispatch.1 Method.GET "/" 0 ⟨"t", 0⟩ out h]
  · exact increment_once_before_dispatch.2 "t"

/-- Claim C3: every GET on a path passing `starts_with("/echo/")` answers
status 200 with message exactly "Echo: " followed by the byte-exact
remainder of the path after the six-byte pattern (no decoding, no trimming);
GET /echo/hello yields "Echo: hello" and GET /echo/ yields "Echo: ". -/
theorem echo_byte_exact_remainder :
    (∀ p total ctx, rust_starts_with p "/echo/" = true →
      ∃ r, handle_request Method.GET p total ctx = some (increment_requests total, r) ∧
        r.status = 200 ∧
        r.payload = Payload.json ⟨"Echo: " ++ String.mk (p.data.drop 6),
          ctx.timestamp, serverIdent⟩) ∧
    (∀ total ctx, ∃ r, handle_request Method.GET "/echo/hello" total ctx =
        some (increment_requests total, r) ∧ r.status = 200 ∧
        r.payload = Payload.json ⟨"Echo: hello", ctx.timestamp, serverIdent⟩) ∧
    (∀ total ctx, ∃ r, handle_request Method.GET "/echo/" total ctx =
        some (increment_requests total, r) ∧ r.status = 200 ∧
        r.payload = Payload.json ⟨"Echo: ", ctx.timestamp, serverIdent⟩) := by
  refine ⟨fun p total ctx h => handle_request_echo p total ctx h, ?_, ?_⟩
  · intro total ctx
    have h := handle_request_echo "/echo/hello" total ctx (by decide)
    have he : ("Echo: " ++ String.mk (("/echo/hello" : String).data.drop 6) : String) =
        "Echo: hello" := by decide
    rw [he] at h
    exact h
  · intro total ctx
    have h := handle_request_echo "/echo/" total ctx (by decide)
    have he : ("Echo: " ++ String.mk (("/echo/" : String).data.drop 6) : String) =
        "Echo: " := by decide
    rw [he] at h
    exact h

/-- Witness for C3 at a concrete input: GET /echo/x. -/
theorem echo_byte_exact_remainder_witness :
    ∃ r, handle_request Method.GET "/echo/x" 0 ⟨"t", 0⟩ =
        some (increment_requests 0, r) ∧ r.status = 200 ∧
      r.payload = Payload.json ⟨"Echo: " ++ String.mk (("/echo/x" : String).data.drop 6),
        "t", serverIdent⟩ :=
  echo_byte_exact_remainder.1 "/echo/x" 0 ⟨"t", 0⟩ (by decide)

/-- Claim C4: in every stats response, requests_per_second equals
total_requests divided by uptime_seconds when uptime_seconds is positive and
equals 0 when uptime_seconds is zero, so the division is guarded and never
performed at zero (f64 modelled as exact rationals). -/
theorem stats_rps_division_guard :
    ∀ total uptime : Nat,
      ((handle_stats total uptime).map Response.payload =
        some (Payload.stats ⟨total, uptime,
          if uptime > 0 then (total : Rat) / (uptime : Rat) else 0⟩)) ∧
      (uptime = 0 → (handle_stats total uptime).map Response.payload =
        some (Payload.stats ⟨total, 0, 0⟩)) ∧
      (0 < uptime → (handle_stats total uptime).map Response.payload =
        some (Payload.stats ⟨total, uptime, (total : Rat) / (uptime : Rat)⟩)) := by
  intro total uptime
  refine ⟨handle_stats_payload total uptime, ?_, ?_⟩
  · intro h0
    subst h0
    rw [handle_stats_payload total 0]
    norm_num
  · intro hpos
    rw [handle_stats_payload total uptime, if_pos hpos]

/-- Witness for C4 at concrete inputs: uptime 0 gives rps 0, uptime 2 with
6 requests gives the division. -/
theorem stats_rps_division_guard_witness :
    ((handle_stats 7 0).map Response.payload = some (Payload.stats ⟨7, 0, 0⟩)) ∧
    ((handle_stats 6 2).map Response.payload =
      some (Payload.stats ⟨6, 2, (6 : Rat) / (2 : Rat)⟩)) :=
  ⟨(stats_rps_division_guard 7 0).2.1 rfl,
   by
    have h := (stats_rps_division_guard 6 2).2.2 (by norm_num)
    norm_num at h ⊢
    exact h⟩

/-- Claim C5: every response the server produces, for every route and every
status including the 404 not-found response, carries the header
Content-Type: application/json and the Server identification header. -/
theorem all_responses_carry_fixed_headers :
    ∀ m p total ctx out, handle_request m p total ctx = some out →
      contentTypeHeader ∈ out.2.headers ∧ serverHeader ∈ out.2.headers := by
  intro m p total ctx out h
  rw [handle_request_headers m p total ctx out h]
  exact ⟨List.mem_cons_self _ _, by simp⟩

/-- Witness for C5 at a concrete input: the 404 response to POST /nope. -/
theorem all_responses_carry_fixed_headers_witness :
    ∃ out, handle_request Method.POST "/nope" 0 ⟨"t", 0⟩ = some out ∧
      contentTypeHeader ∈ out.2.headers ∧ serverHeader ∈ out.2.headers := by
  rcases h : handle_request Method.POST "/nope" 0 ⟨"t", 0⟩ with - | out
  · exact absurd h (by decide)
  · exact ⟨out, rfl, all_responses_carry_fixed_headers Method.POST "/nope" 0 ⟨"t", 0⟩ out h⟩

/-- Claim C6: serializing the fixed, statically-typed payload shapes
(JsonResponse and StatsResponse) never fails for any field values, so the
error branch of the unwrap in json_response is unreachable. -/
theorem serialization_total_on_payload_shapes :
    ∀ pl : Payload, (∃ s, serde_json_to_string (payloadToJValue pl) = Except.ok s) ∧
      ∀ st : Nat, (json_response st pl).isSome = true :=
  fun pl => ⟨serde_ok pl, fun st => json_response_isSome st pl⟩

/-- Counterexample for C7 as stated: at the maximal u64 value the wrapping
increment takes the counter to 0, a strict decrease, so "never decreases"
fails there. -/
theorem counter_wrap_decrease_cex :
    increment_requests (2 ^ 64 - 1) = 0 ∧
    increment_requests (2 ^ 64 - 1) < 2 ^ 64 - 1 := by
  constructor <;> decide

/-- Claim C7 (amended): the counter starts at 0, the only mutation is
increment_requests, which adds exactly 1 modulo 2^64; below 2^64 − 1 it adds
exactly 1 and never decreases the counter. -/
theorem counter_increment_and_monotonicity :
    new_total_requests = 0 ∧
    (∀ v : Nat, increment_requests v = (v + 1) % 2 ^ 64) ∧
    (∀ v : Nat, v < 2 ^ 64 - 1 → increment_requests v = v + 1 ∧
      v ≤ increment_requests v) := by
  refine ⟨rfl, fun v => rfl, fun v hv => ?_⟩
  have hM : (2 : Nat) ^ 64 = 18446744073709551616 := by norm_num
  rw [hM] at hv
  have he : increment_requests v = v + 1 := by
    unfold increment_requests U64_MOD
    rw [hM]
    exact Nat.mod_eq_of_lt (by omega)
  exact ⟨he, by rw [he]; omega⟩

/-- Witness for C7's amended claim at the concrete counter value 41. -/
theorem counter_increment_and_monotonicity_witness :
    increment_requests 41 = 42 ∧ 41 ≤ increment_requests 41 :=
  counter_increment_and_monotonicity.2.2 41 (by norm_num)

/-- Claim C8: every request reaching dispatch produces exactly one response:
handle_request never fails, and the byte slice at index 6 on an echo path
cannot panic. -/
theorem dispatch_always_responds :
    (∀ m p total ctx, (handle_request m p total ctx).isSome = true) ∧
    (∀ p, rust_starts_with p "/echo/" = true → (sliceFrom p 6).isSome = true) := by
  refine ⟨handle_request_isSome, fun p h => ?_⟩
  rw [sliceFrom_echo p h]
  rfl

/-- Witness for C8 at concrete inputs: GET / and the slice on /echo/a. -/
theorem dispatch_always_responds_witness :
    (handle_request Method.GET "/" 0 ⟨"t", 0⟩).isSome = true ∧
    (sliceFrom "/echo/a" 6).isSome = true :=
  ⟨dispatch_always_responds.1 Method.GET "/" 0 ⟨"t", 0⟩,
   dispatch_always_responds.2 "/echo/a" (by decide)⟩

/-- Claim C9 (amended): for every N below 2^64 and every mix and order of
routes, after N requests have completed the counter equals exactly N — the
atomic increments lose no updates and never double-count; at N = 2^64 the
counter wraps instead. -/
theorem concurrent_total_equals_n_below_wrap :
    ∀ rs : List Req, rs.length < 2 ^ 64 → dispatchAll rs 0 = some rs.length := by
  intro rs h
  rw [dispatchAll_eq rs 0 (by norm_num [U64_MOD])]
  congr 1
  rw [Nat.zero_add]
  exact Nat.mod_eq_of_lt h

/-- Witness for C9's amended claim: three requests on mixed routes count to
exactly 3. -/
theorem concurrent_total_equals_n_below_wrap_witness :
    dispatchAll [⟨Method.GET, "/", ⟨"t", 0⟩⟩, ⟨Method.POST, "/x", ⟨"t", 0⟩⟩,
      ⟨Method.GET, "/stats", ⟨"t", 1⟩⟩] 0 = some 3 := by
  have h := concurrent_total_equals_n_below_wrap
    [⟨Method.GET, "/", ⟨"t", 0⟩⟩, ⟨Method.POST, "/x", ⟨"t", 0⟩⟩,
     ⟨Method.GET, "/stats", ⟨"t", 1⟩⟩] (by decide)
  simpa using h

/-- Counterexample for C9 as stated: after 2^64 completed requests the
counter reads 0, not 2^64. -/
theorem concurrent_total_wrap_cex :
    dispatchAll (List.replicate (2 ^ 64) ⟨Method.GET, "/", ⟨"t", 0⟩⟩) 0 = some 0 ∧
    (List.replicate (2 ^ 64) (⟨Method.GET, "/", ⟨"t", 0⟩⟩ : Req)).length = 2 ^ 64 ∧
    (0 : Nat) ≠ 2 ^ 64 := by
  refine ⟨?_, by rw [List.length_replicate], by norm_num⟩
  rw [dispatchAll_eq _ 0 (by norm_num [U64_MOD]), List.length_replicate, Nat.zero_add]
  unfold U64_MOD
  rw [Nat.mod_self]

/-- Claim C10: increment_requests is wrapping addition modulo 2^64: from any
value v it yields (v + 1) mod 2^64, at 2^64 − 1 it wraps to 0, and below
2^64 that wrap is the only input where the increment decreases the
counter. -/
theorem fetch_add_wraps_mod_2_64 :
    (∀ v : Nat, increment_requests v = (v + 1) % 2 ^ 64) ∧
    increment_requests (2 ^ 64 - 1) = 0 ∧
    (∀ v : Nat, v < 2 ^ 64 → (increment_requests v < v ↔ v = 2 ^ 64 - 1)) := by
  have hM : (2 : Nat) ^ 64 = 18446744073709551616 := by norm_num
  refine ⟨fun v => rfl, by decide, fun v hv => ?_⟩
  rw [hM] at hv
  constructor
  · intro hlt
    by_contra hne
    rw [hM] at hne
    have he : increment_requests v = v + 1 := by
      unfold increment_requests U64_MOD
      rw [hM]
      exact Nat.mod_eq_of_lt (by omega)
    omega
  · intro he
    subst he
    have h0 : increment_requests (2 ^ 64 - 1) = 0 := by decide
    rw [h0, hM]
    omega

/-- Witness for C10 at the concrete wrap point 2^64 − 1. -/
theorem fetch_add_wraps_mod_2_64_witness :
    increment_requests (2 ^ 64 - 1) < 2 ^ 64 - 1 ↔ (2 ^ 64 - 1 : Nat) = 2 ^ 64 - 1 :=
  fetch_add_wraps_mod_2_64.2.2 (2 ^ 64 - 1) (by norm_num)

end RustHttp
